import Mathlib

/-!
Verification of the Next.js API route generator: a shallow embedding of its
two components, the prompt wizard and the route emitter, together with proofs
of the specified properties.  Strings interpolate with `++` exactly as the
source template literals do; the filesystem is modelled as an association list
from paths to file contents plus a failure oracle for the two mutating calls.
-/

/-- Substring test on character lists: `listInfix p s` is true when `p`
occurs contiguously inside `s`. -/
def listInfix (p : List Char) : List Char → Bool
  | [] => p.isEmpty
  | c :: rest => p.isPrefixOf (c :: rest) || listInfix p rest

/-- Substring test on strings, via the underlying character lists. -/
def strContains (p s : String) : Bool :=
  listInfix p.toList s.toList

theorem isPrefixOf_append_self (p u : List Char) : p.isPrefixOf (p ++ u) = true := by
  induction p with
  | nil => simp [List.isPrefixOf]
  | cons c p ih => simp [List.isPrefixOf, ih]

theorem listInfix_append (t p u : List Char) : listInfix p (t ++ (p ++ u)) = true := by
  induction t with
  | nil =>
    cases h : p ++ u with
    | nil =>
      rcases List.append_eq_nil.mp h with ⟨hp, _⟩
      subst hp
      simp [listInfix]
    | cons c rest =>
      simp only [List.nil_append, h, listInfix]
      rw [← h, isPrefixOf_append_self]
      simp
  | cons c t ih =>
    simp [listInfix, ih]

/-- If a string decomposes as `a ++ p ++ b` then it contains `p`. -/
theorem strContains_of_split (a p b s : String) (h : s = a ++ p ++ b) :
    strContains p s = true := by
  subst h
  show listInfix p.toList (a ++ p ++ b).data = true
  rw [String.data_append, String.data_append, List.append_assoc]
  exact listInfix_append a.data p.toList b.data

/-- The ECMAScript white-space set stripped by `String.prototype.trim`:
WhiteSpace (TAB, VT, FF, SP, NBSP, ZWNBSP and the Unicode Zs space
separators) together with the LineTerminators (LF, CR, LS, PS). -/
def jsWhitespace (c : Char) : Bool :=
  c == '\t' || c == '\n' || c == '\u000B' || c == '\u000C' || c == '\r' ||
  c == ' ' || c == '\u00A0' || c == '\u1680' ||
  c == '\u2000' || c == '\u2001' || c == '\u2002' || c == '\u2003' ||
  c == '\u2004' || c == '\u2005' || c == '\u2006' || c == '\u2007' ||
  c == '\u2008' || c == '\u2009' || c == '\u200A' ||
  c == '\u2028' || c == '\u2029' || c == '\u202F' || c == '\u205F' ||
  c == '\u3000' || c == '\uFEFF'

/-- JavaScript `String.prototype.trim` on the character list: strip leading
and trailing ECMAScript white space. -/
def trimChars (l : List Char) : List Char :=
  ((l.dropWhile jsWhitespace).reverse.dropWhile jsWhitespace).reverse

/-- JavaScript `value.trim()`. -/
def jsTrim (s : String) : String :=
  String.mk (trimChars s.toList)

/-- JavaScript `routeName.split('/')` (string separator, no limit). -/
def splitSlashAux : List Char → List Char → List String
  | [], acc => [String.mk acc.reverse]
  | c :: rest, acc =>
    if c = '/' then String.mk acc.reverse :: splitSlashAux rest []
    else splitSlashAux rest (c :: acc)

def splitSlash (s : String) : List String :=
  splitSlashAux s.toList []

theorem splitSlashAux_ne_nil (l acc : List Char) : splitSlashAux l acc ≠ [] := by
  induction l generalizing acc with
  | nil => simp [splitSlashAux]
  | cons c rest ih =>
    simp only [splitSlashAux]
    split
    · simp
    · exact ih _

theorem splitSlash_ne_nil (s : String) : splitSlash s ≠ [] :=
  splitSlashAux_ne_nil _ _

/-- Join path components with the `/` separator. -/
def joinParts : List String → String
  | [] => ""
  | [p] => p
  | p :: ps => p ++ "/" ++ joinParts ps

/-- The segment pass of Node's posix `normalizeString`: drop empty and `.`
segments; `..` pops the previous segment, and above the start it is kept
for a relative path (`allowAboveRoot`) and dropped for an absolute one.
The accumulator holds the kept segments in reverse. -/
def normalizeSegments (allowAboveRoot : Bool) (acc : List String) : List String → List String
  | [] => acc.reverse
  | seg :: rest =>
    if seg = "" || seg = "." then normalizeSegments allowAboveRoot acc rest
    else if seg = ".." then
      match acc with
      | [] => normalizeSegments allowAboveRoot (if allowAboveRoot then [".."] else []) rest
      | top :: accRest =>
        if top = ".." then normalizeSegments allowAboveRoot (".." :: top :: accRest) rest
        else normalizeSegments allowAboveRoot accRest rest
    else normalizeSegments allowAboveRoot (seg :: acc) rest

/-- Node's posix `path.normalize`: resolve `.` and `..` segments, collapse
duplicate separators, keep a leading `/` (absolute path) and a trailing
separator, and return `.` for an emptied relative path. -/
def normalizePath (p : String) : String :=
  let isAbsolute : Bool := match p.data with | '/' :: _ => true | _ => false
  let trailingSep : Bool := match p.data.getLast? with | some '/' => true | _ => false
  let body := joinParts (normalizeSegments (!isAbsolute) [] (splitSlash p))
  if body = "" then
    if isAbsolute then "/" else if trailingSep then "./" else "."
  else
    (if isAbsolute then "/" ++ body else body) ++ (if trailingSep then "/" else "")

/-- Node's posix `path.join`: zero-length components are dropped, the rest
are joined with `/`, and the result is normalized (`.` for an empty
join). -/
def pathJoin (parts : List String) : String :=
  let joined := joinParts (parts.filter (fun p => p != ""))
  if joined = "" then "." else normalizePath joined

/-- Node's `path.dirname` for the slash-joined paths built here: everything
before the final separator. -/
def dirname (s : String) : String :=
  joinParts ((splitSlash s).dropLast)

theorem joinParts_cons (p q : String) (ps : List String) :
    joinParts (p :: q :: ps) = p ++ "/" ++ joinParts (q :: ps) := rfl

theorem joinParts_append_single (ps : List String) (x : String) (h : ps ≠ []) :
    joinParts (ps ++ [x]) = joinParts ps ++ "/" ++ x := by
  induction ps with
  | nil => exact absurd rfl h
  | cons p ps ih =>
    cases ps with
    | nil => rfl
    | cons q qs =>
      simp only [List.cons_append]
      rw [joinParts_cons, ← List.cons_append, ih (by simp), joinParts_cons]
      simp [String.append_assoc]

/-! ## Source data: HTTP methods, defaults, templates (src/index.js lines 9-88) -/

/-- The HttpMethod array from line 9. -/
def HttpMethod : List String := ["GET", "POST", "PUT", "PATCH", "DELETE"]

/-- defaultConfig.useTypeScript (line 12).  defaultConfig.baseDir is
process.cwd(); the embedding passes the working directory in as `cwd`. -/
def defaultUseTypeScript : Bool := false

/-- A template record: name, description and the getContent render function
taking (method, routeName, useTypeScript). -/
structure Template where
  name : String
  description : String
  getContent : String → String → Bool → String

/-- templates.basic.getContent (lines 20-26). -/
def basicGetContent (method routeName : String) (useTypeScript : Bool) : String :=
  "\nimport \x7b " ++ (if useTypeScript then "NextRequest, " else "") ++
  "NextResponse \x7d from \x27next/server\x27;\n\n" ++
  "export async function " ++ method ++
  "(request" ++ (if useTypeScript then ": NextRequest" else "") ++
  ") \x7b\n  return NextResponse.json(\x7b message: \x27" ++
  "Hello from " ++ routeName ++ "!" ++
  "\x27 \x7d, \x7b status: 200 \x7d);\n\x7d\n"

/-- templates.withParams.getContent (lines 31-42). -/
def withParamsGetContent (method routeName : String) (useTypeScript : Bool) : String :=
  "\nimport \x7b " ++ (if useTypeScript then "NextRequest, " else "") ++
  "NextResponse \x7d from \x27next/server\x27;\n\n" ++
  "export async function " ++ method ++
  "(request" ++ (if useTypeScript then ": NextRequest" else "") ++
  ", \x7b params \x7d" ++
  (if useTypeScript then ": \x7b params: \x7b [key: string]: string \x7d \x7d" else "") ++
  ") \x7b\n  const queryParams = request.nextUrl.searchParams\n  return NextResponse.json(\x7b\n    message: \x27" ++
  "Hello from " ++ routeName ++ "!" ++
  "\x27,\n    pathParams: params,\n    queryParams,\n  \x7d);\n\x7d\n"

/-- templates.withErrorHandling.getContent (lines 47-59). -/
def withErrorHandlingGetContent (method routeName : String) (useTypeScript : Bool) : String :=
  "\nimport \x7b " ++ (if useTypeScript then "NextRequest, " else "") ++
  "NextResponse \x7d from \x27next/server\x27;\n\n" ++
  "export async function " ++ method ++
  "(request" ++ (if useTypeScript then ": NextRequest" else "") ++
  ") \x7b\n  try \x7b\n    // Your logic here\n    return NextResponse.json(\x7b message: \x27" ++
  "Hello from " ++ routeName ++ "!" ++
  "\x27 \x7d, \x7b status: 200 \x7d);\n  \x7d catch (error) \x7b\n    console.error(\x27Error in " ++
  routeName ++
  ":\x27, error);\n    return NextResponse.json(\x7b error: \x27Internal Server Error\x27 \x7d, \x7b status: 500 \x7d);\n  \x7d\n\x7d\n"

/-- The schema-validation failure branch of the withValidation template
(lines 79-81): catches a ZodError and responds with HTTP status 400. -/
def validationFailureBranch : String :=
  "if (error instanceof z.ZodError) \x7b\n      return NextResponse.json(\x7b error: \x27Validation failed\x27, details: error.errors \x7d, \x7b status: 400 \x7d);\n    \x7d"

/-- The generic failure response of the withValidation template (line 83):
responds with HTTP status 500. -/
def genericFailureResponse : String :=
  "return NextResponse.json(\x7b error: \x27Internal Server Error\x27 \x7d, \x7b status: 500 \x7d);"

/-- templates.withValidation.getContent (lines 64-86). -/
def withValidationGetContent (method routeName : String) (useTypeScript : Bool) : String :=
  "\nimport \x7b " ++ (if useTypeScript then "NextRequest, " else "") ++
  "NextResponse \x7d from \x27next/server\x27;\nimport \x7b z \x7d from \x27zod\x27;\n\nconst schema = z.object(\x7b\n  name: z.string().min(1),\n  email: z.string().email(),\n\x7d);\n\n" ++
  "export async function " ++ method ++
  "(request" ++ (if useTypeScript then ": NextRequest" else "") ++
  ") \x7b\n  try \x7b\n    const body = await request.json();\n    const validatedData = schema.parse(body);\n    return NextResponse.json(\x7b message: \x27Data validated successfully\x27, data: validatedData \x7d);\n  \x7d catch (error) \x7b\n    " ++
  validationFailureBranch ++
  "\n    console.error(\x27Error in " ++ routeName ++ ":\x27, error);\n    " ++
  genericFailureResponse ++
  "\n  \x7d\n\x7d\n"

def basicTemplate : Template :=
  { name := "Basic"
    description := "A simple API route with a JSON response"
    getContent := basicGetContent }

def withParamsTemplate : Template :=
  { name := "With Params"
    description := "An API route that handles path and query parameters"
    getContent := withParamsGetContent }

def withErrorHandlingTemplate : Template :=
  { name := "With Error Handling"
    description := "An API route with built-in error handling"
    getContent := withErrorHandlingGetContent }

def withValidationTemplate : Template :=
  { name := "With Validation"
    description := "An API route with request body validation"
    getContent := withValidationGetContent }

/-- The keys of the templates object, in declaration order. -/
def templateKeys : List String :=
  ["basic", "withParams", "withErrorHandling", "withValidation"]

/-- Key lookup in the templates object; an unknown key is undefined. -/
def templates (key : String) : Option Template :=
  if key = "basic" then some basicTemplate
  else if key = "withParams" then some withParamsTemplate
  else if key = "withErrorHandling" then some withErrorHandlingTemplate
  else if key = "withValidation" then some withValidationTemplate
  else none

/-! ## Route emitter (src/index.js lines 90-110) -/

/-- The filesystem as the emitter sees it: an association list from path to
file content, plus an oracle saying which `mkdirSync` / `writeFileSync`
calls throw.  The oracle stands for external failure causes (permissions,
disk full); a thrown call leaves the files unchanged. -/
structure FsWorld where
  files : List (String × String)
  mkdirFails : String → Bool
  writeFails : String → Bool

/-- `fs.writeFileSync`: replace the content at a path, or add the file. -/
def setFile : List (String × String) → String → String → List (String × String)
  | [], p, c => [(p, c)]
  | (q, d) :: rest, p, c =>
    if q = p then (p, c) :: rest else (q, d) :: setFile rest p c

/-- Read a file back from the modelled filesystem. -/
def getFile : List (String × String) → String → Option String
  | [], _ => none
  | (q, d) :: rest, p => if q = p then some d else getFile rest p

/-- The config argument of generateApiRoute: the chosen method and the
template record looked up from the templates object (undefined for an
unknown key). -/
structure Config where
  method : String
  template : Option Template

/-- The options argument of generateApiRoute; missing fields take the
defaults on line 94. -/
structure Options where
  useTypeScript : Option Bool := none
  baseDir : Option String := none

/-- The destination path computed on lines 95-98:
path.join(baseDir, 'app', 'api', ...routeName.split('/'), 'route.' + ext). -/
def routeFilePath (baseDir routeName : String) (useTypeScript : Bool) : String :=
  pathJoin ([baseDir, "app", "api"] ++ splitSlash routeName ++
    ["route." ++ (if useTypeScript then "ts" else "js")])

/-- The catch-branch log line (line 108), which carries the route name. -/
def genErrorMsg (routeName : String) : String :=
  "❌ Error generating API route handler " ++ routeName ++ ":"

/-- The success log line (line 106), which carries the resolved path.  The
elapsed-milliseconds figure is wall-clock time and is not modelled. -/
def genSuccessMsg (filePath : String) : String :=
  "✅ API route handler generated: " ++ filePath

/-- What one call of generateApiRoute leaves behind: the filesystem and the
console lines it printed. -/
structure GenOutcome where
  world : FsWorld
  log : List String

/-- generateApiRoute (lines 90-110).  The whole body sits in one try/catch:
a missing template (config.template undefined makes getContent throw), a
failing mkdirSync or a failing writeFileSync each jump to the catch branch,
which only logs; nothing propagates to the caller. -/
def generateApiRoute (cwd : String) (world : FsWorld) (routeName : String)
    (config : Config) (options : Options) : GenOutcome :=
  let useTypeScript := options.useTypeScript.getD defaultUseTypeScript
  let baseDir := options.baseDir.getD cwd
  let filePath := routeFilePath baseDir routeName useTypeScript
  match config.template with
  | none => { world := world, log := [genErrorMsg routeName] }
  | some tpl =>
    let content := tpl.getContent config.method routeName useTypeScript
    if world.mkdirFails (dirname filePath) then
      { world := world, log := [genErrorMsg routeName] }
    else if world.writeFails filePath then
      { world := world, log := [genErrorMsg routeName] }
    else
      { world := { world with files := setFile world.files filePath content }
        log := [genSuccessMsg filePath] }

/-! ## Prompt wizard (src/index.js lines 112-210) -/

/-- The steps array (line 123). -/
def steps : List String := ["Route Name", "HTTP Method", "Template", "TypeScript", "Base Directory"]

/-- What one prompt hands back: a cancellation signal, the string of a text
or select widget, or the boolean of the confirm widget. -/
inductive Ans where
  | cancel
  | str (v : String)
  | bool (b : Bool)
deriving DecidableEq

/-- The answers object, keyed by the lower-cased, space-stripped step names
(line 188). -/
structure Answers where
  routename : Option String := none
  httpmethod : Option String := none
  template : Option String := none
  typescript : Option Bool := none
  basedirectory : Option String := none
deriving DecidableEq

/-- The validate callback of the Route Name prompt (lines 136-139). -/
def routeNameValidate (value : String) : Option String :=
  if jsTrim value = "" then some "Route name cannot be empty" else none

/-- Math.max(0, currentStep - 1) (line 186). -/
def goBackCursor (c : Nat) : Nat := max 0 (c - 1)

/-- Result of one pass of the wizard loop body. -/
inductive StepOut where
  | cancelled
  | next (cursor : Nat) (answers : Answers)
deriving DecidableEq

/-- One pass of the wizard loop body (lines 127-191) at cursor `c` for the
prompt result `i`: cancellation exits; a value rejected by the Route Name
validator is re-prompted by the widget with no state change; the literal
answer 'back' moves the cursor back (clamped at 0) without storing; any
other answer is stored under the step's key and the cursor advances.  A
string at the confirm step or a boolean at a text/select step cannot be
produced by the widgets and is treated as a re-prompt. -/
def wizardStep (c : Nat) (ans : Answers) (i : Ans) : StepOut :=
  match i with
  | .cancel => .cancelled
  | .str v =>
    match c with
    | 0 =>
      match routeNameValidate v with
      | some _ => .next 0 ans
      | none =>
        if v = "back" then .next (goBackCursor 0) ans
        else .next 1 { ans with routename := some v }
    | 1 =>
      if v = "back" then .next (goBackCursor 1) ans
      else .next 2 { ans with httpmethod := some v }
    | 2 =>
      if v = "back" then .next (goBackCursor 2) ans
      else .next 3 { ans with template := some v }
    | 4 =>
      if v = "back" then .next (goBackCursor 4) ans
      else .next 5 { ans with basedirectory := some v }
    | _ => .next c ans
  | .bool b =>
    match c with
    | 3 => .next 4 { ans with typescript := some b }
    | _ => .next c ans

/-- Outcome of running the wizard loop on a finite script of prompt
results. -/
inductive WizOutcome where
  | completed (answers : Answers)
  | cancelled
  | outOfInput
deriving DecidableEq

/-- The wizard loop (lines 127-191): iterate wizardStep until the cursor
passes the last step, the user cancels, or the input script runs dry. -/
def runWizardFrom (c : Nat) (ans : Answers) : List Ans → WizOutcome
  | [] => if c < steps.length then .outOfInput else .completed ans
  | i :: rest =>
    if c < steps.length then
      match wizardStep c ans i with
      | .cancelled => .cancelled
      | .next c2 a2 => runWizardFrom c2 a2 rest
    else .completed ans

/-- JavaScript `answers.basedirectory || defaultConfig.baseDir` (line 200):
an absent or empty string falls back to the default. -/
def orDefault (o : Option String) (d : String) : String :=
  match o with
  | some s => if s = "" then d else s
  | none => d

/-- Console lines whose presence the spec talks about. -/
def cancelNotice : String := "Operation cancelled."

def generatedNotice : String := "API route generated successfully"

def outroNotice : String := "API route generation complete!"

/-- What a finished process run leaves behind: the filesystem, the exit
status, and the semantically relevant console lines in order. -/
structure ProgResult where
  world : FsWorld
  exitCode : Nat
  output : List String

/-- The config object built on lines 193-196. -/
def mainConfig (answers : Answers) : Config :=
  { method := answers.httpmethod.getD ""
    template := answers.template.bind templates }

/-- The options object built on lines 198-201. -/
def mainOptions (cwd : String) (answers : Answers) : Options :=
  { useTypeScript := answers.typescript
    baseDir := some (orDefault answers.basedirectory cwd) }

/-- The tail of main after the wizard completed (lines 193-209): build
config and options, run the emitter, then print the spinner-stop line and
the outro unconditionally and return exit status 0.  A completed wizard has
stored every answer, so the getD defaults are never the value used. -/
def runCompleted (cwd : String) (world : FsWorld) (answers : Answers) : ProgResult :=
  let gen := generateApiRoute cwd world (answers.routename.getD "")
    (mainConfig answers) (mainOptions cwd answers)
  { world := gen.world
    exitCode := 0
    output := gen.log ++ [generatedNotice, outroNotice] }

/-- The whole process on an input script: run the wizard from step 0 with an
empty answers object; cancellation prints the cancel notice and exits 0
(lines 180-183) without touching the filesystem; completion runs the
emitter tail.  `none` stands for a run still blocked on a prompt. -/
def runProgram (cwd : String) (world : FsWorld) (inputs : List Ans) : Option ProgResult :=
  match runWizardFrom 0 {} inputs with
  | .cancelled => some { world := world, exitCode := 0, output := [cancelNotice] }
  | .completed answers => some (runCompleted cwd world answers)
  | .outOfInput => none

/-! ## Claim theorems -/

theorem str_eq_of_data {s t : String} (h : s.data = t.data) : s = t := by
  cases s
  cases t
  exact congrArg String.mk h

theorem joinParts_cons_ne (p : String) (ps : List String) (h : ps ≠ []) :
    joinParts (p :: ps) = p ++ "/" ++ joinParts ps := by
  cases ps with
  | nil => exact absurd rfl h
  | cons q qs => exact joinParts_cons p q qs

/-- The destination path exactly as the spec writes it:
`<baseDir>/app/api/<segment1>/<segment2>/.../route.<ext>`. -/
def specDestPath (baseDir : String) (segments : List String) (ext : String) : String :=
  baseDir ++ "/app/api/" ++ joinParts segments ++ "/route." ++ ext

/-- Joining all the emitter's path components (all non-empty under the
hypotheses, so the empty-component filter keeps them) produces exactly the
spec's slash formula. -/
theorem joined_parts_eq_specDestPath (baseDir routeName : String) (ts : Bool)
    (hb : baseDir ≠ "") (hseg : ∀ s ∈ splitSlash routeName, s ≠ "") :
    joinParts (([baseDir, "app", "api"] ++ splitSlash routeName ++
        ["route." ++ (if ts then "ts" else "js")]).filter (fun p => p != ""))
      = specDestPath baseDir (splitSlash routeName) (if ts then "ts" else "js") := by
  have hsegnil : splitSlash routeName ≠ [] := splitSlash_ne_nil routeName
  have hall : ∀ a ∈ ([baseDir, "app", "api"] ++ splitSlash routeName ++
      ["route." ++ (if ts then "ts" else "js")]), (a != "") = true := by
    intro a ha
    simp only [List.mem_append, List.mem_cons, List.not_mem_nil, or_false] at ha
    rcases ha with ((rfl | rfl | rfl) | h) | rfl
    · simpa using hb
    · decide
    · decide
    · simpa using hseg a h
    · cases ts <;> decide
  rw [List.filter_eq_self.mpr hall]
  simp only [List.cons_append, List.nil_append, List.append_assoc]
  rw [joinParts_cons_ne baseDir _ (by simp),
    joinParts_cons_ne "app" _ (by simp),
    joinParts_cons_ne "api" _ (by simp),
    joinParts_append_single _ _ hsegnil]
  unfold specDestPath
  apply str_eq_of_data
  simp only [String.data_append, List.append_assoc]
  simp

theorem specDestPath_ne_empty (baseDir : String) (segments : List String) (ext : String) :
    specDestPath baseDir segments ext ≠ "" := by
  intro h
  have hd := congrArg String.data h
  simp [specDestPath, String.data_append] at hd

set_option maxRecDepth 8000 in
/-- C2 counterexample: at route name a/../b (every split segment
non-empty), base directory /tmp/x and TypeScript off, the emitter's path is
not the verbatim slash formula: path.join normalizes the dot-dot segment
away, writing /tmp/x/app/api/b/route.js instead of
/tmp/x/app/api/a/../b/route.js. -/
theorem c2_destination_path_counterexample :
    routeFilePath "/tmp/x" "a/../b" false
      ≠ specDestPath "/tmp/x" (splitSlash "a/../b") (if false then "ts" else "js")
  ∧ routeFilePath "/tmp/x" "a/../b" false = "/tmp/x/app/api/b/route.js"
  ∧ specDestPath "/tmp/x" (splitSlash "a/../b") (if false then "ts" else "js")
      = "/tmp/x/app/api/a/../b/route.js" := by
  refine ⟨by decide, by decide, by decide⟩

/-- C2 (amended): for every route name, base directory and TypeScript flag,
with the base directory non-empty and no empty split segment, the emitter's
destination path is the Node normalization of the spec formula
baseDir/app/api/segments/route.ext with the extension chosen by the flag;
the segments enter the formula verbatim and uninterpreted (normalization
touches only empty, dot and dot-dot segments, never bracket syntax such as
[id]). -/
theorem c2_destination_path (baseDir routeName : String) (ts : Bool)
    (hb : baseDir ≠ "") (hseg : ∀ s ∈ splitSlash routeName, s ≠ "") :
    routeFilePath baseDir routeName ts
      = normalizePath
          (specDestPath baseDir (splitSlash routeName) (if ts then "ts" else "js")) := by
  simp only [routeFilePath, pathJoin]
  rw [joined_parts_eq_specDestPath baseDir routeName ts hb hseg,
    if_neg (specDestPath_ne_empty baseDir (splitSlash routeName) (if ts then "ts" else "js"))]

theorem c2_destination_path_witness :
    ("/tmp/x" : String) ≠ "" ∧ (∀ s ∈ splitSlash "users/[id]", s ≠ "")
  ∧ routeFilePath "/tmp/x" "users/[id]" false
      = normalizePath
          (specDestPath "/tmp/x" (splitSlash "users/[id]") (if false then "ts" else "js")) :=
  ⟨by decide, by decide,
    c2_destination_path "/tmp/x" "users/[id]" false (by decide) (by decide)⟩

set_option maxRecDepth 8000 in
/-- C1: running the emitter with route name users/[id], method GET, the
basic template, TypeScript off and base directory /tmp/x writes exactly one
file, at /tmp/x/app/api/users/[id]/route.js, whose content contains the
literal Hello from users/[id]! and the text async function GET(request). -/
theorem c1_roundtrip_users_id :
    (generateApiRoute "/cwd"
        { files := [], mkdirFails := fun _ => false, writeFails := fun _ => false }
        "users/[id]" { method := "GET", template := templates "basic" }
        { useTypeScript := some false, baseDir := some "/tmp/x" }).world.files
      = [("/tmp/x/app/api/users/[id]/route.js", basicGetContent "GET" "users/[id]" false)]
  ∧ strContains "Hello from users/[id]!" (basicGetContent "GET" "users/[id]" false) = true
  ∧ strContains "async function GET(request)" (basicGetContent "GET" "users/[id]" false) = true := by
  refine ⟨?_, ?_, ?_⟩ <;> decide

theorem basicGetContent_export (m rn : String) (ts : Bool) :
    strContains ("export async function " ++ m) (basicGetContent m rn ts) = true :=
  strContains_of_split
    ("\nimport \x7b " ++ (if ts then "NextRequest, " else "") ++
      "NextResponse \x7d from \x27next/server\x27;\n\n")
    ("export async function " ++ m)
    ("(request" ++ (if ts then ": NextRequest" else "") ++
      ") \x7b\n  return NextResponse.json(\x7b message: \x27" ++
      "Hello from " ++ rn ++ "!" ++
      "\x27 \x7d, \x7b status: 200 \x7d);\n\x7d\n")
    (basicGetContent m rn ts)
    (by
      apply str_eq_of_data
      simp [basicGetContent, String.data_append, List.append_assoc])

set_option maxRecDepth 8000 in
theorem withParamsGetContent_export (m rn : String) (ts : Bool) :
    strContains ("export async function " ++ m) (withParamsGetContent m rn ts) = true :=
  strContains_of_split
    ("\nimport \x7b " ++ (if ts then "NextRequest, " else "") ++
      "NextResponse \x7d from \x27next/server\x27;\n\n")
    ("export async function " ++ m)
    ("(request" ++ (if ts then ": NextRequest" else "") ++
      ", \x7b params \x7d" ++
      (if ts then ": \x7b params: \x7b [key: string]: string \x7d \x7d" else "") ++
      ") \x7b\n  const queryParams = request.nextUrl.searchParams\n  return NextResponse.json(\x7b\n    message: \x27" ++
      "Hello from " ++ rn ++ "!" ++
      "\x27,\n    pathParams: params,\n    queryParams,\n  \x7d);\n\x7d\n")
    (withParamsGetContent m rn ts)
    (by
      apply str_eq_of_data
      simp [withParamsGetContent, String.data_append, List.append_assoc])

set_option maxRecDepth 8000 in
theorem withErrorHandlingGetContent_export (m rn : String) (ts : Bool) :
    strContains ("export async function " ++ m) (withErrorHandlingGetContent m rn ts) = true :=
  strContains_of_split
    ("\nimport \x7b " ++ (if ts then "NextRequest, " else "") ++
      "NextResponse \x7d from \x27next/server\x27;\n\n")
    ("export async function " ++ m)
    ("(request" ++ (if ts then ": NextRequest" else "") ++
      ") \x7b\n  try \x7b\n    // Your logic here\n    return NextResponse.json(\x7b message: \x27" ++
      "Hello from " ++ rn ++ "!" ++
      "\x27 \x7d, \x7b status: 200 \x7d);\n  \x7d catch (error) \x7b\n    console.error(\x27Error in " ++
      rn ++
      ":\x27, error);\n    return NextResponse.json(\x7b error: \x27Internal Server Error\x27 \x7d, \x7b status: 500 \x7d);\n  \x7d\n\x7d\n")
    (withErrorHandlingGetContent m rn ts)
    (by
      apply str_eq_of_data
      simp [withErrorHandlingGetContent, String.data_append, List.append_assoc])

set_option maxRecDepth 8000 in
theorem withValidationGetContent_export (m rn : String) (ts : Bool) :
    strContains ("export async function " ++ m) (withValidationGetContent m rn ts) = true :=
  strContains_of_split
    ("\nimport \x7b " ++ (if ts then "NextRequest, " else "") ++
      "NextResponse \x7d from \x27next/server\x27;\nimport \x7b z \x7d from \x27zod\x27;\n\nconst schema = z.object(\x7b\n  name: z.string().min(1),\n  email: z.string().email(),\n\x7d);\n\n")
    ("export async function " ++ m)
    ("(request" ++ (if ts then ": NextRequest" else "") ++
      ") \x7b\n  try \x7b\n    const body = await request.json();\n    const validatedData = schema.parse(body);\n    return NextResponse.json(\x7b message: \x27Data validated successfully\x27, data: validatedData \x7d);\n  \x7d catch (error) \x7b\n    " ++
      validationFailureBranch ++
      "\n    console.error(\x27Error in " ++ rn ++ ":\x27, error);\n    " ++
      genericFailureResponse ++
      "\n  \x7d\n\x7d\n")
    (withValidationGetContent m rn ts)
    (by
      apply str_eq_of_data
      simp [withValidationGetContent, String.data_append, List.append_assoc])

/-- C3: for every method in the HttpMethod enumeration, every one of the
four template keys and both TypeScript settings (and any route name), the
rendered source text contains the substring export async function followed
by the requested method name. -/
theorem c3_method_export_name (m : String) (_hm : m ∈ HttpMethod) (k : String)
    (hk : k ∈ templateKeys) (rn : String) (ts : Bool) :
    ∃ tpl, templates k = some tpl
      ∧ strContains ("export async function " ++ m) (tpl.getContent m rn ts) = true := by
  simp only [templateKeys, List.mem_cons, List.not_mem_nil, or_false] at hk
  rcases hk with rfl | rfl | rfl | rfl
  · exact ⟨basicTemplate, rfl, basicGetContent_export m rn ts⟩
  · exact ⟨withParamsTemplate, rfl, withParamsGetContent_export m rn ts⟩
  · exact ⟨withErrorHandlingTemplate, rfl, withErrorHandlingGetContent_export m rn ts⟩
  · exact ⟨withValidationTemplate, rfl, withValidationGetContent_export m rn ts⟩

theorem c3_method_export_name_witness :
    ∃ tpl, templates "withValidation" = some tpl
      ∧ strContains ("export async function " ++ "POST")
          (tpl.getContent "POST" "users/[id]" true) = true :=
  c3_method_export_name "POST" (by decide) "withValidation" (by decide) "users/[id]" true

set_option maxRecDepth 8000 in
/-- C4: for every method (and route name) and both TypeScript settings, the
withValidation template's rendered text contains two distinct failure
branches: the branch taken on a ZodError schema-validation failure, which
responds with status 400, and the generic failure response with status
500. -/
theorem c4_validation_branches (m rn : String) (ts : Bool) :
    strContains validationFailureBranch (withValidationGetContent m rn ts) = true
  ∧ strContains genericFailureResponse (withValidationGetContent m rn ts) = true
  ∧ strContains "status: 400" validationFailureBranch = true
  ∧ strContains "status: 500" genericFailureResponse = true
  ∧ validationFailureBranch ≠ genericFailureResponse := by
  refine ⟨?_, ?_, by decide, by decide, by decide⟩
  · exact strContains_of_split
      ("\nimport \x7b " ++ (if ts then "NextRequest, " else "") ++
        "NextResponse \x7d from \x27next/server\x27;\nimport \x7b z \x7d from \x27zod\x27;\n\nconst schema = z.object(\x7b\n  name: z.string().min(1),\n  email: z.string().email(),\n\x7d);\n\n" ++
        "export async function " ++ m ++
        "(request" ++ (if ts then ": NextRequest" else "") ++
        ") \x7b\n  try \x7b\n    const body = await request.json();\n    const validatedData = schema.parse(body);\n    return NextResponse.json(\x7b message: \x27Data validated successfully\x27, data: validatedData \x7d);\n  \x7d catch (error) \x7b\n    ")
      validationFailureBranch
      ("\n    console.error(\x27Error in " ++ rn ++ ":\x27, error);\n    " ++
        genericFailureResponse ++ "\n  \x7d\n\x7d\n")
      (withValidationGetContent m rn ts)
      (by
        apply str_eq_of_data
        simp [withValidationGetContent, String.data_append, List.append_assoc])
  · exact strContains_of_split
      ("\nimport \x7b " ++ (if ts then "NextRequest, " else "") ++
        "NextResponse \x7d from \x27next/server\x27;\nimport \x7b z \x7d from \x27zod\x27;\n\nconst schema = z.object(\x7b\n  name: z.string().min(1),\n  email: z.string().email(),\n\x7d);\n\n" ++
        "export async function " ++ m ++
        "(request" ++ (if ts then ": NextRequest" else "") ++
        ") \x7b\n  try \x7b\n    const body = await request.json();\n    const validatedData = schema.parse(body);\n    return NextResponse.json(\x7b message: \x27Data validated successfully\x27, data: validatedData \x7d);\n  \x7d catch (error) \x7b\n    " ++
        validationFailureBranch ++
        "\n    console.error(\x27Error in " ++ rn ++ ":\x27, error);\n    ")
      genericFailureResponse
      ("\n  \x7d\n\x7d\n")
      (withValidationGetContent m rn ts)
      (by
        apply str_eq_of_data
        simp [withValidationGetContent, String.data_append, List.append_assoc])

theorem setFile_setFile (l : List (String × String)) (p c : String) :
    setFile (setFile l p c) p c = setFile l p c := by
  induction l with
  | nil => simp [setFile]
  | cons hd t ih =>
    obtain ⟨q, d⟩ := hd
    by_cases h : q = p
    · simp [setFile, h]
    · simp [setFile, h, ih]

theorem getFile_setFile (l : List (String × String)) (p c : String) :
    getFile (setFile l p c) p = some c := by
  induction l with
  | nil => simp [setFile, getFile]
  | cons hd t ih =>
    obtain ⟨q, d⟩ := hd
    by_cases h : q = p
    · simp [setFile, h, getFile]
    · simp [setFile, h, getFile, ih]

/-- C5: a filesystem failure in directory creation or file write is caught
inside generateApiRoute and turned into a log line carrying the route name,
leaving the filesystem untouched; and after any completed wizard, whatever
the filesystem does, the program prints the success spinner line and the
outro and exits with status 0. -/
theorem c5_emission_failure_nonfatal (cwd routeName method : String) (tpl : Template)
    (options : Options) (world : FsWorld) (answers : Answers)
    (hfail :
      world.mkdirFails (dirname (routeFilePath (options.baseDir.getD cwd) routeName
          (options.useTypeScript.getD defaultUseTypeScript))) = true
      ∨ world.writeFails (routeFilePath (options.baseDir.getD cwd) routeName
          (options.useTypeScript.getD defaultUseTypeScript)) = true) :
    (generateApiRoute cwd world routeName { method := method, template := some tpl } options).log
      = [genErrorMsg routeName]
  ∧ (generateApiRoute cwd world routeName { method := method, template := some tpl } options).world
      = world
  ∧ strContains routeName (genErrorMsg routeName) = true
  ∧ (runCompleted cwd world answers).exitCode = 0
  ∧ generatedNotice ∈ (runCompleted cwd world answers).output
  ∧ outroNotice ∈ (runCompleted cwd world answers).output := by
  have hcontains : strContains routeName (genErrorMsg routeName) = true :=
    strContains_of_split "❌ Error generating API route handler " routeName ":"
      (genErrorMsg routeName) rfl
  have hgen :
      generateApiRoute cwd world routeName { method := method, template := some tpl } options
        = { world := world, log := [genErrorMsg routeName] } := by
    rcases hfail with h | h
    · simp [generateApiRoute, h]
    · by_cases hm : world.mkdirFails (dirname (routeFilePath (options.baseDir.getD cwd)
          routeName (options.useTypeScript.getD defaultUseTypeScript))) = true
      · simp [generateApiRoute, hm]
      · simp [generateApiRoute, hm, h]
  refine ⟨by rw [hgen], by rw [hgen], hcontains, rfl, ?_, ?_⟩
  · simp [runCompleted]
  · simp [runCompleted]

theorem c5_emission_failure_nonfatal_witness :
    (generateApiRoute "/c"
        { files := [], mkdirFails := fun _ => true, writeFails := fun _ => false }
        "users" { method := "GET", template := some basicTemplate }
        { useTypeScript := some false, baseDir := some "/tmp/x" }).log
      = [genErrorMsg "users"]
  ∧ (generateApiRoute "/c"
        { files := [], mkdirFails := fun _ => true, writeFails := fun _ => false }
        "users" { method := "GET", template := some basicTemplate }
        { useTypeScript := some false, baseDir := some "/tmp/x" }).world
      = { files := [], mkdirFails := fun _ => true, writeFails := fun _ => false }
  ∧ strContains "users" (genErrorMsg "users") = true
  ∧ (runCompleted "/c" { files := [], mkdirFails := fun _ => true, writeFails := fun _ => false }
        {}).exitCode = 0
  ∧ generatedNotice ∈ (runCompleted "/c"
        { files := [], mkdirFails := fun _ => true, writeFails := fun _ => false } {}).output
  ∧ outroNotice ∈ (runCompleted "/c"
        { files := [], mkdirFails := fun _ => true, writeFails := fun _ => false } {}).output :=
  c5_emission_failure_nonfatal "/c" "users" "GET" basicTemplate
    { useTypeScript := some false, baseDir := some "/tmp/x" }
    { files := [], mkdirFails := fun _ => true, writeFails := fun _ => false }
    {} (Or.inl rfl)

/-- C9: emission is deterministic and idempotent: with a filesystem whose
directory creation and write succeed, one run replaces the file at the
destination path with the rendered content, and a second run of the same
request writes the same bytes and leaves the file list exactly as after the
first run. -/
theorem c9_idempotent (cwd routeName method baseDir : String) (ts : Bool)
    (tpl : Template) (world : FsWorld)
    (hm : world.mkdirFails (dirname (routeFilePath baseDir routeName ts)) = false)
    (hw : world.writeFails (routeFilePath baseDir routeName ts) = false) :
    (generateApiRoute cwd world routeName { method := method, template := some tpl }
        { useTypeScript := some ts, baseDir := some baseDir }).world.files
      = setFile world.files (routeFilePath baseDir routeName ts)
          (tpl.getContent method routeName ts)
  ∧ (generateApiRoute cwd
        (generateApiRoute cwd world routeName { method := method, template := some tpl }
          { useTypeScript := some ts, baseDir := some baseDir }).world
        routeName { method := method, template := some tpl }
        { useTypeScript := some ts, baseDir := some baseDir }).world.files
      = (generateApiRoute cwd world routeName { method := method, template := some tpl }
          { useTypeScript := some ts, baseDir := some baseDir }).world.files
  ∧ getFile (generateApiRoute cwd world routeName { method := method, template := some tpl }
          { useTypeScript := some ts, baseDir := some baseDir }).world.files
        (routeFilePath baseDir routeName ts)
      = some (tpl.getContent method routeName ts) := by
  have e1 : generateApiRoute cwd world routeName { method := method, template := some tpl }
      { useTypeScript := some ts, baseDir := some baseDir }
      = { world :=
            { files := setFile world.files (routeFilePath baseDir routeName ts)
                (tpl.getContent method routeName ts)
              mkdirFails := world.mkdirFails
              writeFails := world.writeFails }
          log := [genSuccessMsg (routeFilePath baseDir routeName ts)] } := by
    simp [generateApiRoute, hm, hw]
  refine ⟨by rw [e1], ?_, ?_⟩
  · rw [e1]
    simp [generateApiRoute, hm, hw, setFile_setFile]
  · rw [e1]
    simp [getFile_setFile]

theorem c9_idempotent_witness :
    ((generateApiRoute "/c"
        { files := [], mkdirFails := fun _ => false, writeFails := fun _ => false }
        "users" { method := "GET", template := some basicTemplate }
        { useTypeScript := some false, baseDir := some "/tmp/x" }).world.files
      = setFile [] (routeFilePath "/tmp/x" "users" false)
          (basicTemplate.getContent "GET" "users" false))
  ∧ ((generateApiRoute "/c"
        (generateApiRoute "/c"
          { files := [], mkdirFails := fun _ => false, writeFails := fun _ => false }
          "users" { method := "GET", template := some basicTemplate }
          { useTypeScript := some false, baseDir := some "/tmp/x" }).world
        "users" { method := "GET", template := some basicTemplate }
        { useTypeScript := some false, baseDir := some "/tmp/x" }).world.files
      = (generateApiRoute "/c"
          { files := [], mkdirFails := fun _ => false, writeFails := fun _ => false }
          "users" { method := "GET", template := some basicTemplate }
          { useTypeScript := some false, baseDir := some "/tmp/x" }).world.files)
  ∧ getFile (generateApiRoute "/c"
        { files := [], mkdirFails := fun _ => false, writeFails := fun _ => false }
        "users" { method := "GET", template := some basicTemplate }
        { useTypeScript := some false, baseDir := some "/tmp/x" }).world.files
        (routeFilePath "/tmp/x" "users" false)
      = some (basicTemplate.getContent "GET" "users" false) :=
  c9_idempotent "/c" "users" "GET" "/tmp/x" false basicTemplate
    { files := [], mkdirFails := fun _ => false, writeFails := fun _ => false } rfl rfl

/-- C6: a cancellation signal at any of the five wizard steps ends the
wizard at once, and a run whose wizard cancelled exits with status 0,
prints the cancellation notice, and leaves the filesystem exactly as it
was: no file is written and the emitter is never invoked. -/
theorem c6_cancellation_clean_exit (cwd : String) (world : FsWorld) (inputs : List Ans)
    (c : Nat) (a : Answers) (rest : List Ans) (hc : c < steps.length)
    (h : runWizardFrom 0 {} inputs = WizOutcome.cancelled) :
    runWizardFrom c a (Ans.cancel :: rest) = WizOutcome.cancelled
  ∧ runProgram cwd world inputs
      = some { world := world, exitCode := 0, output := [cancelNotice] } := by
  constructor
  · simp [runWizardFrom, hc, wizardStep]
  · simp [runProgram, h]

theorem c6_cancellation_clean_exit_witness :
    runWizardFrom 2 {} (Ans.cancel :: []) = WizOutcome.cancelled
  ∧ runProgram "/c" { files := [], mkdirFails := fun _ => false, writeFails := fun _ => false }
        [Ans.str "users", Ans.cancel]
      = some { world := { files := [], mkdirFails := fun _ => false, writeFails := fun _ => false }
               exitCode := 0
               output := [cancelNotice] } :=
  c6_cancellation_clean_exit "/c"
    { files := [], mkdirFails := fun _ => false, writeFails := fun _ => false }
    [Ans.str "users", Ans.cancel] 2 {} [] (by decide) (by decide)

/-- C7: a go-back selection at the HttpMethod or Template step moves the
cursor back by exactly one (clamped at 0) and leaves the stored answers
completely unchanged; in particular, going back from Template to HttpMethod
and re-confirming a method stores only the method again, so the previously
entered route name (and every other answer) is untouched. -/
theorem c7_go_back_preserves_answers (a : Answers) (m : String) (hm : m ≠ "back") :
    wizardStep 1 a (Ans.str "back") = StepOut.next 0 a
  ∧ wizardStep 2 a (Ans.str "back") = StepOut.next 1 a
  ∧ wizardStep 1 a (Ans.str m) = StepOut.next 2 { a with httpmethod := some m }
  ∧ ({ a with httpmethod := some m } : Answers).routename = a.routename
  ∧ ({ a with httpmethod := some m } : Answers).template = a.template
  ∧ ({ a with httpmethod := some m } : Answers).typescript = a.typescript
  ∧ ({ a with httpmethod := some m } : Answers).basedirectory = a.basedirectory := by
  refine ⟨rfl, rfl, ?_, rfl, rfl, rfl, rfl⟩
  simp [wizardStep, hm]

theorem c7_go_back_preserves_answers_witness :
    wizardStep 1 { routename := some "users/[id]" } (Ans.str "back")
      = StepOut.next 0 { routename := some "users/[id]" }
  ∧ wizardStep 2 { routename := some "users/[id]" } (Ans.str "back")
      = StepOut.next 1 { routename := some "users/[id]" }
  ∧ wizardStep 1 { routename := some "users/[id]" } (Ans.str "POST")
      = StepOut.next 2 { ({ routename := some "users/[id]" } : Answers) with httpmethod := some "POST" }
  ∧ ({ ({ routename := some "users/[id]" } : Answers) with httpmethod := some "POST" } : Answers).routename
      = ({ routename := some "users/[id]" } : Answers).routename
  ∧ ({ ({ routename := some "users/[id]" } : Answers) with httpmethod := some "POST" } : Answers).template
      = ({ routename := some "users/[id]" } : Answers).template
  ∧ ({ ({ routename := some "users/[id]" } : Answers) with httpmethod := some "POST" } : Answers).typescript
      = ({ routename := some "users/[id]" } : Answers).typescript
  ∧ ({ ({ routename := some "users/[id]" } : Answers) with httpmethod := some "POST" } : Answers).basedirectory
      = ({ routename := some "users/[id]" } : Answers).basedirectory :=
  c7_go_back_preserves_answers { routename := some "users/[id]" } "POST" (by decide)

/-- C8: the Route Name validator rejects exactly the values whose trimmed
form is empty, with the non-empty message Route name cannot be empty, and
such a value leaves the wizard at the same cursor with the answers object
unchanged; every value with a non-empty trimmed form is accepted. -/
theorem c8_route_name_validation (v : String) (a : Answers) :
    (jsTrim v = "" →
      routeNameValidate v = some "Route name cannot be empty"
      ∧ ("Route name cannot be empty" : String) ≠ ""
      ∧ wizardStep 0 a (Ans.str v) = StepOut.next 0 a)
  ∧ (jsTrim v ≠ "" → routeNameValidate v = none) := by
  constructor
  · intro h
    refine ⟨by simp [routeNameValidate, h], by decide, ?_⟩
    simp [wizardStep, routeNameValidate, h]
  · intro h
    simp [routeNameValidate, h]

theorem c8_route_name_validation_witness :
    (routeNameValidate "   " = some "Route name cannot be empty"
      ∧ ("Route name cannot be empty" : String) ≠ ""
      ∧ wizardStep 0 {} (Ans.str "   ") = StepOut.next 0 {})
  ∧ routeNameValidate "users/[id]" = none :=
  ⟨(c8_route_name_validation "   " {}).1 (by decide),
    (c8_route_name_validation "users/[id]" {}).2 (by decide)⟩

theorem wizardStep_no_back (c c2 : Nat) (ans a2 : Answers) (i : Ans)
    (h : wizardStep c ans i = StepOut.next c2 a2)
    (hr : ans.routename ≠ some "back") (hb : ans.basedirectory ≠ some "back") :
    a2.routename ≠ some "back" ∧ a2.basedirectory ≠ some "back" := by
  cases i with
  | cancel => simp [wizardStep] at h
  | bool b =>
    rcases c with _ | _ | _ | _ | c <;>
      (injection h with e1 e2; subst e2; exact ⟨hr, hb⟩)
  | str v =>
    by_cases hbk : v = "back"
    · subst hbk
      rcases c with _ | _ | _ | _ | _ | c <;>
        (injection h with e1 e2; subst e2; exact ⟨hr, hb⟩)
    · rcases c with _ | _ | _ | _ | _ | c
      · by_cases hv : jsTrim v = ""
        · have hred : wizardStep 0 ans (Ans.str v) = StepOut.next 0 ans := by
            simp [wizardStep, routeNameValidate, hv]
          rw [hred] at h
          injection h with e1 e2
          subst e2
          exact ⟨hr, hb⟩
        · have hred : wizardStep 0 ans (Ans.str v)
              = StepOut.next 1 { ans with routename := some v } := by
            simp [wizardStep, routeNameValidate, hv, hbk]
          rw [hred] at h
          injection h with e1 e2
          subst e2
          exact ⟨by simpa using hbk, hb⟩
      · have hred : wizardStep 1 ans (Ans.str v)
            = StepOut.next 2 { ans with httpmethod := some v } := by
          simp [wizardStep, hbk]
        rw [hred] at h
        injection h with e1 e2
        subst e2
        exact ⟨hr, hb⟩
      · have hred : wizardStep 2 ans (Ans.str v)
            = StepOut.next 3 { ans with template := some v } := by
          simp [wizardStep, hbk]
        rw [hred] at h
        injection h with e1 e2
        subst e2
        exact ⟨hr, hb⟩
      · injection h with e1 e2
        subst e2
        exact ⟨hr, hb⟩
      · have hred : wizardStep 4 ans (Ans.str v)
            = StepOut.next 5 { ans with basedirectory := some v } := by
          simp [wizardStep, hbk]
        rw [hred] at h
        injection h with e1 e2
        subst e2
        exact ⟨hr, by simpa using hbk⟩
      · injection h with e1 e2
        subst e2
        exact ⟨hr, hb⟩

theorem runWizardFrom_no_back (inputs : List Ans) : ∀ (c : Nat) (ans : Answers),
    ans.routename ≠ some "back" → ans.basedirectory ≠ some "back" →
    ∀ a, runWizardFrom c ans inputs = WizOutcome.completed a →
    a.routename ≠ some "back" ∧ a.basedirectory ≠ some "back" := by
  induction inputs with
  | nil =>
    intro c ans hr hb a h
    simp only [runWizardFrom] at h
    split at h
    · simp at h
    · injection h with e
      subst e
      exact ⟨hr, hb⟩
  | cons i rest ih =>
    intro c ans hr hb a h
    simp only [runWizardFrom] at h
    split at h
    · rcases hws : wizardStep c ans i with _ | ⟨c2, a2⟩ <;> rw [hws] at h
      · simp at h
      · obtain ⟨hr2, hb2⟩ := wizardStep_no_back c c2 ans a2 i hws hr hb
        exact ih c2 a2 hr2 hb2 a h
    · injection h with e
      subst e
      exact ⟨hr, hb⟩

/-- C10: the answer equals the literal string back test runs on every step,
including the free-text Route Name and Base Directory prompts: typing back
there navigates backward (clamped at step 0) instead of being stored, so a
completed answer bundle never holds back as the route name or the base
directory, and a route literally named back cannot be generated. -/
theorem c10_back_literal_navigates_everywhere :
    (∀ a : Answers, wizardStep 0 a (Ans.str "back") = StepOut.next 0 a)
  ∧ (∀ a : Answers, wizardStep 4 a (Ans.str "back") = StepOut.next 3 a)
  ∧ (∀ (inputs : List Ans) (a : Answers),
      runWizardFrom 0 {} inputs = WizOutcome.completed a →
      a.routename ≠ some "back" ∧ a.basedirectory ≠ some "back") :=
  ⟨fun _ => rfl, fun _ => rfl,
    fun inputs a h =>
      runWizardFrom_no_back inputs 0 {} (by simp) (by simp) a h⟩

theorem c10_back_literal_navigates_everywhere_witness :
    ({ routename := some "users", httpmethod := some "GET", template := some "basic",
       typescript := some false, basedirectory := some "/tmp" } : Answers).routename
        ≠ some "back"
  ∧ ({ routename := some "users", httpmethod := some "GET", template := some "basic",
       typescript := some false, basedirectory := some "/tmp" } : Answers).basedirectory
        ≠ some "back" :=
  c10_back_literal_navigates_everywhere.2.2
    [Ans.str "users", Ans.str "GET", Ans.str "basic", Ans.bool false, Ans.str "/tmp"]
    { routename := some "users", httpmethod := some "GET", template := some "basic",
      typescript := some false, basedirectory := some "/tmp" }
    (by decide)
